import Mathlib

/-!
Verification of the action-dispatch and widget-rendering layer of the
lutris game-library manager, as excerpted in `lutris/game_actions.py` and
`lutris/gui/widgets/utils.py`.

The Python code is shallowly embedded: the `Game` object observed by
`GameActions` becomes a record of the attributes the excerpt reads; the
ambient application, file system, shortcut stores and database become an
explicit `Env`; each callback becomes a function returning an `Except`
value carrying the list of external calls (effects) it performs, so that
"raises" and "invokes X" are plain facts about the returned value.
-/

namespace Lutris

/-- Python truthiness of an optional string: `None` and `""` are falsy. -/
def pyTruthy : Option String → Bool
  | none => false
  | some s => s ≠ ""

/-- The runner's `system_config`: the only key the excerpt reads is
`"manual_command"`, so the runner is embedded as that single entry. -/
structure Runner where
  manual_command : Option String
  deriving DecidableEq, Repr

/-- The slice of the `Game` object that `game_actions.py` reads: identity
fields, the boolean state flags, the service/runner attachment, and the
values its methods (`get_browse_dir`, `log_buffer`, `game_config_id`,
`directory`) yield in the state under consideration. -/
structure Game where
  id : Nat
  name : String
  slug : String
  is_installed : Bool
  is_updatable : Bool
  is_favorite : Bool
  is_hidden : Bool
  service : Option String
  runner_name : String
  runner : Option Runner
  directory : String
  game_config_id : Option String
  log_buffer : Option String
  browse_dir : Option String
  deriving DecidableEq, Repr

/-- A row of the PGA games database as touched by `on_game_duplicate`:
the fields the callback rewrites or pops are explicit, every other column
is carried opaquely in `rest`. -/
structure DbGame where
  id : Nat
  name : String
  configpath : Option String
  service : Option String
  service_id : Option String
  rest : List (String × String)
  deriving DecidableEq, Repr

/-- The ambient state the excerpt consults: the application's running-game
registry, the XDG and Steam shortcut stores, the file system, the games
database, and the answer the user gives to the duplicate confirmation
dialog. -/
structure Env where
  /-- `application.get_game_by_id(game_id)` truthiness (a running game). -/
  has_running_game : Nat → Bool
  /-- `application.get_running_game_ids()`. -/
  running_game_ids : List Nat
  /-- `xdgshortcuts.desktop_launcher_exists(slug, id)`. -/
  desktop_launcher_exists : String → Nat → Bool
  /-- `xdgshortcuts.menu_launcher_exists(slug, id)`. -/
  menu_launcher_exists : String → Nat → Bool
  /-- `steam_shortcut.shortcut_exists(game)`. -/
  shortcut_exists : Game → Bool
  /-- `steam_shortcut.is_steam_game(game)`. -/
  is_steam_game : Game → Bool
  /-- `system.path_exists(path)` on a plain path. -/
  path_exists : String → Bool
  /-- The games database (`lutris.database.games`). -/
  db : List DbGame
  /-- The result of the `QuestionDialog` in `on_game_duplicate`:
  `true` iff the user answered YES. -/
  confirm_duplicate : Bool

/-- Python's `system.path_exists` applied to a value that may be `None`:
`path and os.path.exists(path)` is falsy for `None` and `""`. -/
def Env.pyPathExists (env : Env) : Option String → Bool
  | none => false
  | some p => p ≠ "" && env.path_exists p

/-- The expression `self.game.runner and self.game.runner.system_config.get("manual_command")`:
truthy iff the game has a runner with a non-empty manual command. -/
def Game.manualCommand (g : Game) : Option String :=
  match g.runner with
  | none => none
  | some r => r.manual_command

/-- The handlers bound in the dispatch table, one constructor per
`GameActions` method referenced by `get_game_actions`. -/
inductive ActionHandler
  | on_game_launch
  | on_game_stop
  | on_install_clicked
  | on_update_clicked
  | on_install_dlc_clicked
  | on_show_logs
  | on_add_manually
  | on_game_duplicate
  | on_edit_game_configuration
  | on_add_favorite_game
  | on_delete_favorite_game
  | on_execute_script_clicked
  | on_browse_files
  | on_create_desktop_shortcut
  | on_remove_desktop_shortcut
  | on_create_menu_shortcut
  | on_remove_menu_shortcut
  | on_create_steam_shortcut
  | on_remove_steam_shortcut
  | on_remove_game
  | on_view_game
  | on_hide_game
  | on_unhide_game
  deriving DecidableEq, Repr

/-- Embedding of `GameActions.get_game_actions`: the list of
`(action name, label, bound callback)` triples, in source order. -/
def get_game_actions : List (String × String × ActionHandler) :=
  [ ("play", "Play", .on_game_launch),
    ("stop", "Stop", .on_game_stop),
    ("install", "Install", .on_install_clicked),
    ("update", "Install updates", .on_update_clicked),
    ("install_dlcs", "Install DLCs", .on_install_dlc_clicked),
    ("show_logs", "Show logs", .on_show_logs),
    ("add", "Add installed game", .on_add_manually),
    ("duplicate", "Duplicate", .on_game_duplicate),
    ("configure", "Configure", .on_edit_game_configuration),
    ("favorite", "Add to favorites", .on_add_favorite_game),
    ("deletefavorite", "Remove from favorites", .on_delete_favorite_game),
    ("execute-script", "Execute script", .on_execute_script_clicked),
    ("browse", "Browse files", .on_browse_files),
    ("desktop-shortcut", "Create desktop shortcut", .on_create_desktop_shortcut),
    ("rm-desktop-shortcut", "Delete desktop shortcut", .on_remove_desktop_shortcut),
    ("menu-shortcut", "Create application menu shortcut", .on_create_menu_shortcut),
    ("rm-menu-shortcut", "Delete application menu shortcut", .on_remove_menu_shortcut),
    ("steam-shortcut", "Create steam shortcut", .on_create_steam_shortcut),
    ("rm-steam-shortcut", "Delete steam shortcut", .on_remove_steam_shortcut),
    ("install_more", "Install another version", .on_install_clicked),
    ("remove", "Remove", .on_remove_game),
    ("view", "View on Lutris.net", .on_view_game),
    ("hide", "Hide game from library", .on_hide_game),
    ("unhide", "Unhide game from library", .on_unhide_game) ]

/-- Embedding of `GameActions.get_displayed_entries`: the dictionary of visibility
flags, embedded as an association list in source (insertion) order. -/
def get_displayed_entries (g : Game) (env : Env) : List (String × Bool) :=
  [ ("add", !g.is_installed),
    ("duplicate", true),
    ("install", !g.is_installed),
    ("play", g.is_installed && !env.has_running_game g.id),
    ("update", g.is_updatable),
    ("install_dlcs", g.is_updatable),
    ("stop", env.has_running_game g.id),
    ("configure", g.is_installed),
    ("browse", g.is_installed && g.runner_name ≠ "browser"),
    ("show_logs", g.is_installed),
    ("favorite", !g.is_favorite),
    ("deletefavorite", g.is_favorite),
    ("install_more", !pyTruthy g.service && g.is_installed),
    ("execute-script",
      g.is_installed && g.runner.isSome && pyTruthy g.manualCommand),
    ("desktop-shortcut",
      g.is_installed && !env.desktop_launcher_exists g.slug g.id),
    ("menu-shortcut",
      g.is_installed && !env.menu_launcher_exists g.slug g.id),
    ("steam-shortcut",
      g.is_installed && !env.shortcut_exists g && !env.is_steam_game g),
    ("rm-desktop-shortcut",
      g.is_installed && env.desktop_launcher_exists g.slug g.id),
    ("rm-menu-shortcut",
      g.is_installed && env.menu_launcher_exists g.slug g.id),
    ("rm-steam-shortcut",
      g.is_installed && env.shortcut_exists g && !env.is_steam_game g),
    ("remove", true),
    ("view", true),
    ("hide", g.is_installed && !g.is_hidden),
    ("unhide", g.is_hidden) ]

/-- The visibility flag the dictionary assigns to an action name
(`false` when the name is absent). -/
def displayedVal (g : Game) (env : Env) (key : String) : Bool :=
  ((get_displayed_entries g env).lookup key).getD false

/-- The tuple of game state flags named by the spec: installed,
updatable, favorite, hidden, service, runner name, and running status. -/
def stateFlags (g : Game) (env : Env) :
    Bool × Bool × Bool × Bool × Option String × String × Bool :=
  (g.is_installed, g.is_updatable, g.is_favorite, g.is_hidden,
   g.service, g.runner_name, env.has_running_game g.id)

/-- A concrete installed game used to instantiate theorems. -/
def sampleGame : Game :=
  { id := 7, name := "Quake", slug := "quake", is_installed := true,
    is_updatable := false, is_favorite := false, is_hidden := false,
    service := none, runner_name := "wine",
    runner := some { manual_command := some "/games/quake/setup.sh" },
    directory := "/games/quake", game_config_id := some "quake-1",
    log_buffer := none, browse_dir := some "/games/quake" }

/-- A concrete environment in which no launcher or shortcut exists, no
game is running, and no path exists. -/
def sampleEnv : Env :=
  { has_running_game := fun _ => false,
    running_game_ids := [],
    desktop_launcher_exists := fun _ _ => false,
    menu_launcher_exists := fun _ _ => false,
    shortcut_exists := fun _ => false,
    is_steam_game := fun _ => false,
    path_exists := fun _ => false,
    db := [],
    confirm_duplicate := false }

/-- The environment `sampleEnv` with a desktop launcher present for every game. -/
def sampleEnvLauncher : Env :=
  { sampleEnv with desktop_launcher_exists := fun _ _ => true }

/-- Python's `os.path.basename`: the part of a path after the last slash. -/
def basename (p : String) : String :=
  ((p.splitOn "/").reverse).headD ""

/-- The Python exceptions the callbacks can raise. -/
inductive PyError
  | runtimeError (msg : String)
  | attributeError (msg : String)
  | typeError (msg : String)
  deriving DecidableEq, Repr

/-- The external calls a callback performs, in order.  Logging, dialogs
and window creation are inert; the game-model, shortcut, process and
database calls are the operations the callbacks are wired to. -/
inductive Effect
  | logWarning (msg : String)
  | logInfo (msg : String)
  | logError (msg : String)
  | noticeDialog (msg : String)
  | questionDialog (title : String)
  | logWindow (title : String)
  | addGameDialog
  | editGameConfigDialog
  | uninstallGameDialog (game_id : Nat)
  | removeGameDialog (game_id : Nat)
  | emitSignal (game_id : Nat) (signal : String)
  | launch (game_id : Nat)
  | forceStop (game_id : Nat)
  | addToFavorites (game_id : Nat)
  | removeFromFavorites (game_id : Nat)
  | setHidden (game_id : Nat) (hidden : Bool)
  | spawnCommand (command : String) (include_processes : List String) (cwd : String)
  | openUri (uri : String)
  | createLauncher (slug : String) (game_id : Nat) (name : String)
      (desktop : Bool) (menu : Bool)
  | removeLauncher (slug : String) (game_id : Nat) (desktop : Bool) (menu : Bool)
  | steamCreateShortcut (game : Game)
  | steamRemoveShortcut (game : Game)
  | dbAddGame (rec : DbGame)
  | gameSave (game_id : Nat)
  deriving DecidableEq, Repr

/-- Modelled from the spec: `lutris.database.games.get_game_by_field(value, "id")`
(the database layer is not part of the excerpt) — fetches the database
row whose id equals `value`, or `None` when there is no such row. -/
def get_game_by_field (db : List DbGame) (value : Nat) : Option DbGame :=
  db.find? (fun r => r.id == value)

/-- The game names already present in the database. -/
def usedNames (db : List DbGame) : List String :=
  db.map DbGame.name

/-- The largest length of a name present in the database. -/
def maxNameLen (db : List DbGame) : Nat :=
  ((usedNames db).map String.length).foldr max 0

/-- The `i`-th numbered variant of a game name. -/
def nameCandidate (name : String) (i : Nat) : String :=
  name ++ " (" ++ toString (i + 1) ++ ")"

/-- A variant of `name` longer than every name in the database. -/
def fallbackName (db : List DbGame) (name : String) : String :=
  name ++ " (" ++ String.mk (List.replicate (maxNameLen db + 1) '+') ++ ")"

/-- Modelled from the spec: `lutris.database.games.get_unusued_game_name(name)`
(the database layer is not part of the excerpt) — returns a variant of
`name`, `name` extended with a parenthesised suffix, that no game in the
database uses.  Numbered candidates are tried first; a candidate longer
than every used name is the final resort, so the function is total and
the result provably unused. -/
def get_unusued_game_name (db : List DbGame) (name : String) : String :=
  (((List.range (db.length + 1)).map (nameCandidate name)).find?
      (fun c => decide (c ∉ usedNames db))).getD (fallbackName db name)

/-- Modelled from the spec: `lutris.config.duplicate_game_config(slug, config_id)`
(the configuration layer is not part of the excerpt) — copies the game
configuration file and returns the configuration id of the fresh copy. -/
def duplicate_game_config (slug : String) (config_id : String) : String :=
  slug ++ "-" ++ config_id ++ "-copy"

/-- The largest id present in the database. -/
def maxId (db : List DbGame) : Nat :=
  (db.map DbGame.id).foldr max 0

/-- The id `add_game` assigns to the inserted row: one past the largest
id in use. -/
def freshGameId (db : List DbGame) : Nat :=
  maxId db + 1

/-- Modelled from the spec: `lutris.database.games.add_game(**fields)`
(the database layer is not part of the excerpt) — inserts a row carrying
`fields` with a fresh id and returns that id. -/
def add_game (db : List DbGame) (rec : DbGame) : Nat × List DbGame :=
  (freshGameId db, db ++ [{ rec with id := freshGameId db }])

/-- The `configpath` value `on_game_duplicate` stores: a duplicate of the
game's configuration when `old_config_id` is truthy, `None` otherwise. -/
def newConfigId (g : Game) : Option String :=
  match g.game_config_id with
  | none => none
  | some c => if c = "" then none else some (duplicate_game_config g.slug c)

/-- The row `on_game_duplicate` passes to `add_game`: the fetched row
with the name replaced by an unused one, the configpath replaced by the
duplicated configuration, and the service attachment popped. -/
def duplicatedRecord (g : Game) (env : Env) (rec : DbGame) : DbGame :=
  { rec with
    name := get_unusued_game_name env.db g.name
    configpath := newConfigId g
    service := none
    service_id := none }

/-- Embedding of `GameActions.on_game_duplicate`, viewed as a transformation of the
games database: the confirmation dialog gates everything; the fetched row
is rewritten and inserted under a fresh id.  Fetching a game absent from
the database leaves `db_game = None` and the following item assignment
raises `TypeError`. -/
def on_game_duplicate_db (g : Game) (env : Env) : Except PyError (List DbGame) :=
  if !env.confirm_duplicate then .ok env.db
  else
    match get_game_by_field env.db g.id with
    | none => .error (.typeError "NoneType object does not support item assignment")
    | some rec => .ok (add_game env.db (duplicatedRecord g env rec)).2

/-- The semantics of each `GameActions` callback: the list of external
calls it performs, or the exception it raises, translated clause by
clause from `game_actions.py`. -/
def runAction (a : ActionHandler) (g : Game) (env : Env) :
    Except PyError (List Effect) :=
  match a with
  | .on_game_launch => .ok [.launch g.id]
  | .on_game_stop =>
      if env.running_game_ids.any (fun i => i == g.id) then
        .ok [.forceStop g.id]
      else
        .ok [.logWarning "Game not in running game ids"]
  | .on_install_clicked =>
      if g.slug = "" then .error (.runtimeError "No game to install")
      else .ok [.emitSignal g.id "game-install"]
  | .on_update_clicked => .ok [.emitSignal g.id "game-install-update"]
  | .on_install_dlc_clicked => .ok [.emitSignal g.id "game-install-dlc"]
  | .on_show_logs =>
      if pyTruthy g.log_buffer then .ok [.logWindow ("Log for " ++ g.name)]
      else .ok [.logInfo "No log for game", .logWindow ("Log for " ++ g.name)]
  | .on_add_manually => .ok [.addGameDialog]
  | .on_game_duplicate =>
      if !env.confirm_duplicate then .ok [.questionDialog "Duplicate game?"]
      else
        match get_game_by_field env.db g.id with
        | none => .error (.typeError "NoneType object does not support item assignment")
        | some rec =>
            .ok [.questionDialog "Duplicate game?",
                 .dbAddGame { duplicatedRecord g env rec with id := freshGameId env.db },
                 .gameSave (freshGameId env.db)]
  | .on_edit_game_configuration => .ok [.editGameConfigDialog]
  | .on_add_favorite_game => .ok [.addToFavorites g.id]
  | .on_delete_favorite_game => .ok [.removeFromFavorites g.id]
  | .on_execute_script_clicked =>
      match g.runner with
      | none => .error (.attributeError "NoneType object has no attribute system_config")
      | some r =>
          match r.manual_command with
          | none => .ok []
          | some cmd =>
              if (cmd != "") && env.path_exists cmd then
                .ok [.spawnCommand cmd [basename cmd] g.directory,
                     .logInfo "Running in the background"]
              else .ok []
  | .on_browse_files =>
      match g.browse_dir with
      | none => .ok [.noticeDialog "This game has no installation directory"]
      | some path =>
          if path = "" then .ok [.noticeDialog "This game has no installation directory"]
          else if env.path_exists path then .ok [.openUri ("file://" ++ path)]
          else .ok [.noticeDialog "The folder does not exist"]
  | .on_create_desktop_shortcut => .ok [.createLauncher g.slug g.id g.name true false]
  | .on_remove_desktop_shortcut => .ok [.removeLauncher g.slug g.id true false]
  | .on_create_menu_shortcut => .ok [.createLauncher g.slug g.id g.name false true]
  | .on_remove_menu_shortcut => .ok [.removeLauncher g.slug g.id false true]
  | .on_create_steam_shortcut => .ok [.steamCreateShortcut g]
  | .on_remove_steam_shortcut => .ok [.steamRemoveShortcut g]
  | .on_remove_game =>
      if g.is_installed then .ok [.uninstallGameDialog g.id]
      else .ok [.removeGameDialog g.id]
  | .on_view_game => .ok [.openUri ("https://lutris.net/games/" ++ g.slug)]
  | .on_hide_game => .ok [.setHidden g.id true]
  | .on_unhide_game => .ok [.setHidden g.id false]

/-- Holds exactly when the callback raised an exception to its caller. -/
def raises (r : Except PyError (List Effect)) : Bool :=
  match r with
  | .error _ => true
  | .ok _ => false

/-- Modelled from the spec: the game-model mutators invoked by the
callbacks live in `lutris/game.py`, outside the excerpt; the spec says
the `Game` record's flags are "owned and mutated elsewhere".
`set_hidden(b)` stores `b` in the hidden flag,
`add_to_favorites`/`remove_from_favorites` set and clear the favorite
flag, and every other external call leaves the record's fields as they
are. -/
def applyEffect (g : Game) : Effect → Game
  | .setHidden _ b => { g with is_hidden := b }
  | .addToFavorites _ => { g with is_favorite := true }
  | .removeFromFavorites _ => { g with is_favorite := false }
  | _ => g

/-- The game record after the external calls of a callback have run. -/
def applyEffects (g : Game) (effs : List Effect) : Game :=
  effs.foldl applyEffect g

/-- The callback the dispatch table binds to an action name. -/
def handlerFor (name : String) : Option ActionHandler :=
  (get_game_actions.find? (fun e => e.1 == name)).map (fun e => e.2.2)

/-- The game `sampleGame` with an empty slug (a game record with no slug set). -/
def noSlugGame : Game :=
  { sampleGame with slug := "" }

/-- A concrete database row for `sampleGame`. -/
def sampleRec : DbGame :=
  { id := 7, name := "Quake", configpath := some "quake-1",
    service := none, service_id := none,
    rest := [("slug", "quake"), ("runner", "wine")] }

/-- The environment `sampleEnv` with `sampleRec` in the database and the duplicate
confirmation answered YES. -/
def sampleEnvDup : Env :=
  { sampleEnv with db := [sampleRec], confirm_duplicate := true }

/-- The file-system view `gui/widgets/utils.py` consults. -/
structure FsEnv where
  /-- `system.path_exists(path, exclude_empty=True)`: present and non-empty. -/
  path_exists_excl_empty : String → Bool
  /-- `system.path_exists(path)`. -/
  path_exists : String → Bool
  /-- whether `GdkPixbuf.Pixbuf.new_from_file_at_size(path, ...)` succeeds
  (`false` means it raises `GLib.GError`, e.g. a corrupt file). -/
  load_ok : String → Bool

/-- The `GLib.GError` raised by a failing pixbuf load. -/
inductive GError
  | loadFailed (path : String)
  deriving DecidableEq, Repr

/-- A symbolic `GdkPixbuf.Pixbuf`: enough structure to read off which
file was loaded, to what the pixbuf was scaled, and what was composited
over what. -/
inductive Pixbuf
  | fromFileAtSize (path : String) (w h : Nat)
  | scaled (p : Pixbuf) (w h : Nat)
  | composited (dest : Pixbuf) (src : Pixbuf)
  deriving DecidableEq, Repr

/-- The call `pixbuf.scale_simple(w, h, InterpType.NEAREST)`: an exact-size
rescale. -/
def scale_simple (p : Pixbuf) (w h : Nat) : Pixbuf :=
  .scaled p w h

/-- The pixel dimensions of a symbolic pixbuf, when they are forced by
its construction: a `scale_simple` result has exactly its requested
size, compositing draws into the destination, and a bare at-size file
load only bounds the size (aspect ratio preserved), so it is `none`. -/
def pixbufSize : Pixbuf → Option (Nat × Nat)
  | .fromFileAtSize _ _ _ => none
  | .scaled _ w h => some (w, h)
  | .composited dest _ => pixbufSize dest

/-- The value of `datapath.get()`, the installed data directory. -/
def datapathGet : String := "/usr/share/lutris"

/-- The path `os.path.join(datapath.get(), "media/unavailable.png")`. -/
def unavailableOverlay : String := datapathGet ++ "/media/unavailable.png"

/-- Embedding of `get_default_icon(size)`: the default icon for square sizes, the
default banner otherwise. -/
def get_default_icon (size : Nat × Nat) : String :=
  if size.1 = size.2 then datapathGet ++ "/media/default_icon.png"
  else datapathGet ++ "/media/default_banner.png"

/-- Embedding of `get_overlay(overlay_path, size)`: an unguarded at-size load followed
by an exact-size rescale; the load failure is not caught here. -/
def get_overlay (fs : FsEnv) (overlay_path : String) (size : Nat × Nat) :
    Except GError Pixbuf :=
  if fs.load_ok overlay_path then
    .ok (scale_simple (.fromFileAtSize overlay_path size.1 size.2) size.1 size.2)
  else .error (.loadFailed overlay_path)

/-- The fallback path `get_pixbuf` consults when the image is absent:
the given fallback when truthy, else the default icon/banner. -/
def fallbackPath (size : Nat × Nat) (fallback : Option String) : String :=
  if pyTruthy fallback then fallback.getD "" else get_default_icon size

/-- The first phase of `get_pixbuf`: `pixbuf` after the
image-or-fallback loading block.  A load failure of the image itself is
caught and logged (`pixbuf` stays `None`); a load failure of the
fallback is not guarded by any `try` and escapes. -/
def loadedPixbuf (fs : FsEnv) (image : String) (size : Nat × Nat)
    (fallback : Option String) : Except GError (Option Pixbuf) :=
  if fs.path_exists_excl_empty image then
    if fs.load_ok image then
      .ok (some (scale_simple (.fromFileAtSize image size.1 size.2) size.1 size.2))
    else .ok none
  else
    if fs.path_exists (fallbackPath size fallback) then
      if fs.load_ok (fallbackPath size fallback) then
        .ok (some (.fromFileAtSize (fallbackPath size fallback) size.1 size.2))
      else .error (.loadFailed (fallbackPath size fallback))
    else .ok none

/-- The tail of `get_pixbuf` when the installed-and-loaded early return
is not taken: composite whatever was loaded over the unavailable
overlay. -/
def overlayComposite (fs : FsEnv) (size : Nat × Nat) (pixbuf : Option Pixbuf) :
    Except GError Pixbuf :=
  match get_overlay fs unavailableOverlay size with
  | .error e => .error e
  | .ok transparent =>
      match pixbuf with
      | some p => .ok (.composited transparent p)
      | none => .ok transparent

/-- Embedding of `get_pixbuf(image, size, fallback, is_installed)` from
`gui/widgets/utils.py`, translated branch by branch. -/
def get_pixbuf (fs : FsEnv) (image : String) (size : Nat × Nat)
    (fallback : Option String) (is_installed : Bool) : Except GError Pixbuf :=
  match loadedPixbuf fs image size fallback with
  | .error e => .error e
  | .ok (some p) =>
      if is_installed then .ok (scale_simple p size.1 size.2)
      else overlayComposite fs size (some p)
  | .ok none => overlayComposite fs size none

/-- A file system in which "/img/banner.png" is present but corrupt
(loads fail), while the fallback "/img/fb.png" and the data files are
present and load fine. -/
def fsImageCorrupt : FsEnv :=
  { path_exists_excl_empty := fun p => p == "/img/banner.png",
    path_exists := fun p => p == "/img/fb.png" || p == unavailableOverlay,
    load_ok := fun p => p != "/img/banner.png" }

/-- A file system in which every file is present and loads. -/
def fsAllGood : FsEnv :=
  { path_exists_excl_empty := fun _ => true,
    path_exists := fun _ => true,
    load_ok := fun _ => true }

/-- The width the resize step of `thumbnail_image` computes (real
arithmetic and Python `int()` modelled by exact rational comparison and
floored natural division). -/
def resizedW (bw bh tw th : Nat) : Nat :=
  if tw * bh ≤ bw * th then bw * th / bh else tw

/-- The height the resize step of `thumbnail_image` computes. -/
def resizedH (bw bh tw th : Nat) : Nat :=
  if tw * bh ≤ bw * th then th else bh * tw / bw

/-- The dimensions of the image `thumbnail_image` returns: the resized
image cropped by the floored half-offsets on both sides. -/
def thumbnail_dims (bw bh tw th : Nat) : Nat × Nat :=
  (resizedW bw bh tw th - (resizedW bw bh tw th - tw) / 2
     - (resizedW bw bh tw th - tw) / 2,
   resizedH bw bh tw th - (resizedH bw bh tw th - th) / 2
     - (resizedH bw bh tw th - th) / 2)

/-- C1: the action names of `get_game_actions` and the keys of
`get_displayed_entries` are the same set, and each side binds every name
exactly once, so every named action has exactly one visibility predicate
and every visibility predicate gates a named action. -/
theorem get_game_actions_names_match_displayed_keys (g : Game) (env : Env) :
    (get_game_actions.map Prod.fst).toFinset
        = ((get_displayed_entries g env).map Prod.fst).toFinset
      ∧ (get_game_actions.map Prod.fst).Nodup
      ∧ ((get_displayed_entries g env).map Prod.fst).Nodup := by
  have hkeys : (get_displayed_entries g env).map Prod.fst =
      ["add", "duplicate", "install", "play", "update", "install_dlcs",
       "stop", "configure", "browse", "show_logs", "favorite",
       "deletefavorite", "install_more", "execute-script",
       "desktop-shortcut", "menu-shortcut", "steam-shortcut",
       "rm-desktop-shortcut", "rm-menu-shortcut", "rm-steam-shortcut",
       "remove", "view", "hide", "unhide"] := rfl
  rw [hkeys]
  refine ⟨?_, ?_, ?_⟩ <;> decide

/-- C3 counterexample: two program states agreeing on every game state
flag (installed, updatable, favorite, hidden, service, runner name,
running status) on which `get_displayed_entries` nevertheless differs,
because the file system's desktop launcher differs. -/
theorem displayed_entries_not_determined_by_flags_alone :
    stateFlags sampleGame sampleEnv = stateFlags sampleGame sampleEnvLauncher
      ∧ get_displayed_entries sampleGame sampleEnv
          ≠ get_displayed_entries sampleGame sampleEnvLauncher := by
  exact ⟨rfl, by decide⟩

/-- C3 amended: `get_displayed_entries` is determined by the game state
flags together with the runner's presence, the manual command's
truthiness, and the environment's answers to the XDG launcher and Steam
shortcut queries for the game; it reads nothing else. -/
theorem displayed_entries_determined_by_flags_and_queries
    (g₁ g₂ : Game) (env₁ env₂ : Env)
    (hflags : stateFlags g₁ env₁ = stateFlags g₂ env₂)
    (hrunner : g₁.runner.isSome = g₂.runner.isSome)
    (hcmd : pyTruthy g₁.manualCommand = pyTruthy g₂.manualCommand)
    (hdesk : env₁.desktop_launcher_exists g₁.slug g₁.id
        = env₂.desktop_launcher_exists g₂.slug g₂.id)
    (hmenu : env₁.menu_launcher_exists g₁.slug g₁.id
        = env₂.menu_launcher_exists g₂.slug g₂.id)
    (hsc : env₁.shortcut_exists g₁ = env₂.shortcut_exists g₂)
    (hsteam : env₁.is_steam_game g₁ = env₂.is_steam_game g₂) :
    get_displayed_entries g₁ env₁ = get_displayed_entries g₂ env₂ := by
  simp only [stateFlags, Prod.mk.injEq] at hflags
  obtain ⟨hi, hu, hf, hh, hs, hr, hrg⟩ := hflags
  simp only [get_displayed_entries, hi, hu, hf, hh, hs, hr, hrg,
    hrunner, hcmd, hdesk, hmenu, hsc, hsteam]

/-- C3 amended, witness: the amended theorem applied at a concrete
state. -/
theorem displayed_entries_determined_witness :
    get_displayed_entries sampleGame sampleEnv
      = get_displayed_entries sampleGame sampleEnv :=
  displayed_entries_determined_by_flags_and_queries
    sampleGame sampleGame sampleEnv sampleEnv rfl rfl rfl rfl rfl rfl rfl

/-- C6: for every game state the displayed-entry dictionary never shows
both members of any contradictory pair: (favorite, deletefavorite),
(hide, unhide), (play, stop), (desktop-shortcut, rm-desktop-shortcut),
(menu-shortcut, rm-menu-shortcut), (steam-shortcut, rm-steam-shortcut),
and (install, install_more). -/
theorem displayed_entries_mutually_exclusive (g : Game) (env : Env) :
    (displayedVal g env "favorite" && displayedVal g env "deletefavorite") = false
      ∧ (displayedVal g env "hide" && displayedVal g env "unhide") = false
      ∧ (displayedVal g env "play" && displayedVal g env "stop") = false
      ∧ (displayedVal g env "desktop-shortcut"
          && displayedVal g env "rm-desktop-shortcut") = false
      ∧ (displayedVal g env "menu-shortcut"
          && displayedVal g env "rm-menu-shortcut") = false
      ∧ (displayedVal g env "steam-shortcut"
          && displayedVal g env "rm-steam-shortcut") = false
      ∧ (displayedVal g env "install" && displayedVal g env "install_more") = false := by
  have h₁ : displayedVal g env "favorite" = !g.is_favorite := rfl
  have h₂ : displayedVal g env "deletefavorite" = g.is_favorite := rfl
  have h₃ : displayedVal g env "hide" = (g.is_installed && !g.is_hidden) := rfl
  have h₄ : displayedVal g env "unhide" = g.is_hidden := rfl
  have h₅ : displayedVal g env "play"
      = (g.is_installed && !env.has_running_game g.id) := rfl
  have h₆ : displayedVal g env "stop" = env.has_running_game g.id := rfl
  have h₇ : displayedVal g env "desktop-shortcut"
      = (g.is_installed && !env.desktop_launcher_exists g.slug g.id) := rfl
  have h₈ : displayedVal g env "rm-desktop-shortcut"
      = (g.is_installed && env.desktop_launcher_exists g.slug g.id) := rfl
  have h₉ : displayedVal g env "menu-shortcut"
      = (g.is_installed && !env.menu_launcher_exists g.slug g.id) := rfl
  have h₁₀ : displayedVal g env "rm-menu-shortcut"
      = (g.is_installed && env.menu_launcher_exists g.slug g.id) := rfl
  have h₁₁ : displayedVal g env "steam-shortcut"
      = (g.is_installed && !env.shortcut_exists g && !env.is_steam_game g) := rfl
  have h₁₂ : displayedVal g env "rm-steam-shortcut"
      = (g.is_installed && env.shortcut_exists g && !env.is_steam_game g) := rfl
  have h₁₃ : displayedVal g env "install" = !g.is_installed := rfl
  have h₁₄ : displayedVal g env "install_more"
      = (!pyTruthy g.service && g.is_installed) := rfl
  rw [h₁, h₂, h₃, h₄, h₅, h₆, h₇, h₈, h₉, h₁₀, h₁₁, h₁₂, h₁₃, h₁₄]
  refine ⟨?_, ?_, ?_, ?_, ?_, ?_, ?_⟩ <;>
    cases g.is_installed <;> cases env.shortcut_exists g <;> simp

/-- C2 counterexample: `on_install_clicked` raises `RuntimeError` to its
caller when the game record has no slug, so not every error in the
excerpt ends at a logger call or a notice dialog. -/
theorem install_clicked_raises_on_missing_slug :
    runAction .on_install_clicked noSlugGame sampleEnv
      = .error (.runtimeError "No game to install") := by
  rfl

/-- C2 amended: a callback raises an exception to its caller in exactly
three situations: `on_install_clicked` on a game with a falsy slug
(`RuntimeError`), `on_execute_script_clicked` on a game with no runner
(`AttributeError`), and a confirmed `on_game_duplicate` on a game absent
from the database (`TypeError`); every other invocation handles its error
path with logger calls and notice dialogs and returns normally. -/
theorem runAction_raises_iff (a : ActionHandler) (g : Game) (env : Env) :
    raises (runAction a g env) = true ↔
      (a = .on_install_clicked ∧ g.slug = "")
      ∨ (a = .on_execute_script_clicked ∧ g.runner = none)
      ∨ (a = .on_game_duplicate ∧ env.confirm_duplicate = true
           ∧ get_game_by_field env.db g.id = none) := by
  cases a
  case on_game_launch => simp [runAction, raises]
  case on_game_stop =>
    by_cases h : env.running_game_ids.any (fun i => i == g.id) <;>
      simp [runAction, raises, h]
  case on_install_clicked =>
    by_cases h : g.slug = "" <;> simp [runAction, raises, h]
  case on_update_clicked => simp [runAction, raises]
  case on_install_dlc_clicked => simp [runAction, raises]
  case on_show_logs =>
    by_cases h : pyTruthy g.log_buffer <;> simp [runAction, raises, h]
  case on_add_manually => simp [runAction, raises]
  case on_game_duplicate =>
    by_cases hc : env.confirm_duplicate
    · cases hdb : get_game_by_field env.db g.id <;>
        simp [runAction, raises, hc, hdb]
    · simp [runAction, raises, hc]
  case on_edit_game_configuration => simp [runAction, raises]
  case on_add_favorite_game => simp [runAction, raises]
  case on_delete_favorite_game => simp [runAction, raises]
  case on_execute_script_clicked =>
    cases hr : g.runner with
    | none => simp [runAction, raises, hr]
    | some r =>
      cases hm : r.manual_command with
      | none => simp [runAction, raises, hr, hm]
      | some cmd =>
        by_cases h : ((cmd != "") && env.path_exists cmd) = true <;>
          simp [runAction, raises, hr, hm, h]
  case on_browse_files =>
    cases hb : g.browse_dir with
    | none => simp [runAction, raises, hb]
    | some path =>
      by_cases h1 : path = ""
      · simp [runAction, raises, hb, h1]
      · by_cases h2 : env.path_exists path <;>
          simp [runAction, raises, hb, h1, h2]
  case on_create_desktop_shortcut => simp [runAction, raises]
  case on_remove_desktop_shortcut => simp [runAction, raises]
  case on_create_menu_shortcut => simp [runAction, raises]
  case on_remove_menu_shortcut => simp [runAction, raises]
  case on_create_steam_shortcut => simp [runAction, raises]
  case on_remove_steam_shortcut => simp [runAction, raises]
  case on_remove_game =>
    by_cases h : g.is_installed <;> simp [runAction, raises, h]
  case on_view_game => simp [runAction, raises]
  case on_hide_game => simp [runAction, raises]
  case on_unhide_game => simp [runAction, raises]

/-- C4 counterexample: executing the `on_hide_game` callback does change
the game record — its invocation of the game model's `set_hidden(True)`
flips the hidden flag — so the excerpt's callbacks do not leave every
field of the `Game` record unchanged. -/
theorem hide_game_changes_the_hidden_flag :
    runAction .on_hide_game sampleGame sampleEnv = .ok [.setHidden 7 true]
      ∧ applyEffects sampleGame [.setHidden 7 true] ≠ sampleGame := by
  exact ⟨rfl, by decide⟩

/-- C4 amended: the excerpt itself performs no field assignment — a
callback changes the game record only through the game-model mutators it
invokes: `on_hide_game`/`on_unhide_game` leave exactly the effect of
`set_hidden(True)`/`set_hidden(False)` and
`on_add_favorite_game`/`on_delete_favorite_game` exactly the effect of
`add_to_favorites`/`remove_from_favorites`; every other callback leaves
every field of the record unchanged. -/
theorem callbacks_mutate_only_via_game_model
    (a : ActionHandler) (g : Game) (env : Env) (effs : List Effect)
    (h : runAction a g env = .ok effs) :
    applyEffects g effs =
      if a = .on_hide_game then { g with is_hidden := true }
      else if a = .on_unhide_game then { g with is_hidden := false }
      else if a = .on_add_favorite_game then { g with is_favorite := true }
      else if a = .on_delete_favorite_game then { g with is_favorite := false }
      else g := by
  cases a <;>
    simp only [runAction] at h <;>
    (repeat' split at h) <;>
    (try simp only [Except.ok.injEq] at h) <;>
    (try subst h) <;>
    simp_all [applyEffects, applyEffect]

/-- C4 amended, witness: the amended theorem applied to
`on_game_launch` at a concrete state, whose effect leaves the record
unchanged. -/
theorem callbacks_mutate_only_via_game_model_witness :
    applyEffects sampleGame [.launch 7] =
      if ActionHandler.on_game_launch = .on_hide_game then
        { sampleGame with is_hidden := true }
      else if ActionHandler.on_game_launch = .on_unhide_game then
        { sampleGame with is_hidden := false }
      else if ActionHandler.on_game_launch = .on_add_favorite_game then
        { sampleGame with is_favorite := true }
      else if ActionHandler.on_game_launch = .on_delete_favorite_game then
        { sampleGame with is_favorite := false }
      else sampleGame :=
  callbacks_mutate_only_via_game_model .on_game_launch sampleGame sampleEnv
    [.launch 7] rfl

/-- C8: each menu action is wired to its game-model operation: the
dispatch table binds "play" to `on_game_launch` which calls the game's
`launch`; "stop" to `on_game_stop`, which force-stops exactly when the
game's id is among the running ids; "favorite"/"deletefavorite" to
`add_to_favorites`/`remove_from_favorites`; "hide"/"unhide" to
`set_hidden(True)`/`set_hidden(False)`; and the shortcut actions to the
XDG launcher creation/removal with the game's slug, id and name, and to
the Steam shortcut creation/removal with the game's record. -/
theorem actions_wired_to_game_model (g : Game) (env : Env) :
    handlerFor "play" = some .on_game_launch
    ∧ runAction .on_game_launch g env = .ok [.launch g.id]
    ∧ handlerFor "stop" = some .on_game_stop
    ∧ runAction .on_game_stop g env
        = .ok (if g.id ∈ env.running_game_ids then [.forceStop g.id]
               else [.logWarning "Game not in running game ids"])
    ∧ handlerFor "favorite" = some .on_add_favorite_game
    ∧ runAction .on_add_favorite_game g env = .ok [.addToFavorites g.id]
    ∧ handlerFor "deletefavorite" = some .on_delete_favorite_game
    ∧ runAction .on_delete_favorite_game g env = .ok [.removeFromFavorites g.id]
    ∧ handlerFor "hide" = some .on_hide_game
    ∧ runAction .on_hide_game g env = .ok [.setHidden g.id true]
    ∧ handlerFor "unhide" = some .on_unhide_game
    ∧ runAction .on_unhide_game g env = .ok [.setHidden g.id false]
    ∧ handlerFor "desktop-shortcut" = some .on_create_desktop_shortcut
    ∧ runAction .on_create_desktop_shortcut g env
        = .ok [.createLauncher g.slug g.id g.name true false]
    ∧ handlerFor "menu-shortcut" = some .on_create_menu_shortcut
    ∧ runAction .on_create_menu_shortcut g env
        = .ok [.createLauncher g.slug g.id g.name false true]
    ∧ handlerFor "rm-desktop-shortcut" = some .on_remove_desktop_shortcut
    ∧ runAction .on_remove_desktop_shortcut g env
        = .ok [.removeLauncher g.slug g.id true false]
    ∧ handlerFor "rm-menu-shortcut" = some .on_remove_menu_shortcut
    ∧ runAction .on_remove_menu_shortcut g env
        = .ok [.removeLauncher g.slug g.id false true]
    ∧ handlerFor "steam-shortcut" = some .on_create_steam_shortcut
    ∧ runAction .on_create_steam_shortcut g env = .ok [.steamCreateShortcut g]
    ∧ handlerFor "rm-steam-shortcut" = some .on_remove_steam_shortcut
    ∧ runAction .on_remove_steam_shortcut g env = .ok [.steamRemoveShortcut g] := by
  refine ⟨rfl, rfl, rfl, ?_, rfl, rfl, rfl, rfl, rfl, rfl, rfl, rfl, rfl, rfl,
    rfl, rfl, rfl, rfl, rfl, rfl, rfl, rfl, rfl, rfl⟩
  by_cases hmem : g.id ∈ env.running_game_ids
  · have hany : env.running_game_ids.any (fun i => i == g.id) = true := by
      simp only [List.any_eq_true, beq_iff_eq]
      exact ⟨g.id, hmem, rfl⟩
    simp [runAction, hany, hmem]
  · have hany : env.running_game_ids.any (fun i => i == g.id) = false := by
      simp only [List.any_eq_false, beq_iff_eq]
      intro i hi hcontra
      exact hmem (hcontra ▸ hi)
    simp [runAction, hany, hmem]

/-- C7: `on_execute_script_clicked` is guarded and fire-and-forget: when
the game has a runner, it spawns the configured `manual_command` as a
single background `MonitoredCommand.start()` exactly when that path
exists on disk (a non-empty path that the file system reports present),
together with only a log line; when the path does not exist it performs
no external call at all; in both cases the game record is left
unchanged and no waiting, coordination, retry or backpressure effect
is produced. -/
theorem execute_script_guarded (g : Game) (env : Env) (r : Runner)
    (h : g.runner = some r) :
    ∃ effs, runAction .on_execute_script_clicked g env = .ok effs
      ∧ applyEffects g effs = g
      ∧ ((∃ cmd, r.manual_command = some cmd ∧ cmd ≠ ""
            ∧ env.path_exists cmd = true
            ∧ effs = [.spawnCommand cmd [basename cmd] g.directory,
                      .logInfo "Running in the background"])
          ∨ (env.pyPathExists r.manual_command = false ∧ effs = [])) := by
  cases hm : r.manual_command with
  | none =>
      exact ⟨[], by simp [runAction, h, hm], rfl,
        .inr ⟨by simp [Env.pyPathExists, hm], rfl⟩⟩
  | some cmd =>
      by_cases hc : ((cmd != "") && env.path_exists cmd) = true
      · refine ⟨[.spawnCommand cmd [basename cmd] g.directory,
            .logInfo "Running in the background"],
          by simp [runAction, h, hm, hc], rfl, .inl ⟨cmd, rfl, ?_, ?_, rfl⟩⟩
        · intro hemp
          simp [hemp] at hc
        · simp only [Bool.and_eq_true, bne_iff_ne] at hc
          exact hc.2
      · refine ⟨[], by simp [runAction, h, hm, hc], rfl, .inr ⟨?_, rfl⟩⟩
        simp only [Env.pyPathExists, hm]
        simp only [Bool.and_eq_true, bne_iff_ne] at hc
        by_cases hemp : cmd = ""
        · simp [hemp]
        · simp only [ne_eq, hemp, not_false_eq_true, true_and, decide_not]
          simp only [not_and] at hc
          have := hc hemp
          simp [hemp, this]

/-- C7 witness: the guarded-execution theorem applied at a concrete
state whose manual command path does not exist, so no process is
spawned. -/
theorem execute_script_guarded_witness :
    ∃ effs,
      runAction .on_execute_script_clicked sampleGame sampleEnv = .ok effs
      ∧ applyEffects sampleGame effs = sampleGame
      ∧ ((∃ cmd,
            Runner.manual_command { manual_command := some "/games/quake/setup.sh" }
              = some cmd
            ∧ cmd ≠ ""
            ∧ sampleEnv.path_exists cmd = true
            ∧ effs = [.spawnCommand cmd [basename cmd] sampleGame.directory,
                      .logInfo "Running in the background"])
          ∨ (sampleEnv.pyPathExists
               (Runner.manual_command { manual_command := some "/games/quake/setup.sh" })
               = false
             ∧ effs = [])) :=
  execute_script_guarded sampleGame sampleEnv
    { manual_command := some "/games/quake/setup.sh" } rfl

/-- Every name present in the database is at most `maxNameLen` long. -/
theorem length_le_maxNameLen {db : List DbGame} {s : String}
    (h : s ∈ usedNames db) : s.length ≤ maxNameLen db := by
  induction db with
  | nil => simp [usedNames] at h
  | cons hd tl ih =>
      have hstep : maxNameLen (hd :: tl) = max hd.name.length (maxNameLen tl) := rfl
      simp only [usedNames, List.map_cons, List.mem_cons] at h
      rcases h with h | h
      · rw [h, hstep]; exact le_max_left _ _
      · exact le_trans (ih h) (hstep ▸ le_max_right _ _)

/-- The fallback name is longer than every name in the database, hence
unused. -/
theorem fallbackName_unused (db : List DbGame) (name : String) :
    fallbackName db name ∉ usedNames db := by
  intro hmem
  have hlen := length_le_maxNameLen hmem
  have h2 : (" (" : String).length = 2 := rfl
  have h3 : (")" : String).length = 1 := rfl
  rw [fallbackName, String.length_append, String.length_append,
    String.length_append, h2, h3] at hlen
  simp only [String.length_mk, List.length_replicate] at hlen
  omega

/-- The name chosen by `get_unusued_game_name` is not used by any game
in the database. -/
theorem get_unusued_game_name_unused (db : List DbGame) (name : String) :
    get_unusued_game_name db name ∉ usedNames db := by
  rw [get_unusued_game_name]
  cases hf : (((List.range (db.length + 1)).map (nameCandidate name)).find?
      (fun c => decide (c ∉ usedNames db))) with
  | some c =>
      have hp := List.find?_some hf
      simpa using of_decide_eq_true hp
  | none =>
      exact fallbackName_unused db name

/-- The name chosen by `get_unusued_game_name` extends the original
name. -/
theorem get_unusued_game_name_variant (db : List DbGame) (name : String) :
    ∃ s, get_unusued_game_name db name = name ++ s := by
  rw [get_unusued_game_name]
  cases hf : (((List.range (db.length + 1)).map (nameCandidate name)).find?
      (fun c => decide (c ∉ usedNames db))) with
  | some c =>
      have hmem := List.mem_of_find?_eq_some hf
      rw [List.mem_map] at hmem
      obtain ⟨i, _, hi⟩ := hmem
      exact ⟨" (" ++ toString (i + 1) ++ ")", by
        rw [Option.getD_some, ← hi, nameCandidate,
          String.append_assoc, String.append_assoc, String.append_assoc]⟩
  | none =>
      exact ⟨" (" ++ String.mk (List.replicate (maxNameLen db + 1) '+') ++ ")", by
        rw [Option.getD_none, fallbackName,
          String.append_assoc, String.append_assoc, String.append_assoc]⟩

/-- Every id present in the database is at most `maxId`. -/
theorem mem_ids_le_maxId {db : List DbGame} {i : Nat}
    (h : i ∈ db.map DbGame.id) : i ≤ maxId db := by
  induction db with
  | nil => simp at h
  | cons hd tl ih =>
      have hstep : maxId (hd :: tl) = max hd.id (maxId tl) := rfl
      simp only [List.map_cons, List.mem_cons] at h
      rcases h with h | h
      · rw [h, hstep]; exact le_max_left _ _
      · exact le_trans (ih h) (hstep ▸ le_max_right _ _)

/-- The id assigned by `add_game` is not present in the database. -/
theorem freshGameId_not_mem (db : List DbGame) :
    freshGameId db ∉ db.map DbGame.id := by
  intro hmem
  have := mem_ids_le_maxId hmem
  rw [freshGameId] at this
  omega

/-- C10: after a confirmed `on_game_duplicate`, the database is the old
database plus one new row; the new row carries a fresh id, an unused
variant of the original name, a freshly duplicated configpath (`None`
when the original had none), no service attachment, and every other
column copied verbatim from the original row; the original rows are
unchanged (the result extends the old database). -/
theorem duplicate_adds_fresh_variant_row (g : Game) (env : Env) (rec : DbGame)
    (hconf : env.confirm_duplicate = true)
    (hrec : get_game_by_field env.db g.id = some rec)
    (hcfg : rec.configpath = g.game_config_id) :
    ∃ newRec,
      on_game_duplicate_db g env = .ok (env.db ++ [newRec])
      ∧ newRec.id ∉ env.db.map DbGame.id
      ∧ newRec.name = get_unusued_game_name env.db g.name
      ∧ newRec.name ∉ usedNames env.db
      ∧ (∃ s, newRec.name = g.name ++ s)
      ∧ (rec.configpath = none → newRec.configpath = none)
      ∧ (∀ c, rec.configpath = some c → c ≠ "" →
          newRec.configpath = some (duplicate_game_config g.slug c))
      ∧ newRec.service = none
      ∧ newRec.service_id = none
      ∧ newRec.rest = rec.rest := by
  refine ⟨{ duplicatedRecord g env rec with id := freshGameId env.db },
    ?_, ?_, rfl, ?_, ?_, ?_, ?_, rfl, rfl, rfl⟩
  · simp [on_game_duplicate_db, hconf, hrec, add_game]
  · exact freshGameId_not_mem env.db
  · exact get_unusued_game_name_unused env.db g.name
  · exact get_unusued_game_name_variant env.db g.name
  · intro hnone
    rw [hcfg] at hnone
    simp [duplicatedRecord, newConfigId, hnone]
  · intro c hc hne
    rw [hcfg] at hc
    simp [duplicatedRecord, newConfigId, hc, hne]

/-- C10 witness: the duplication theorem applied at a concrete game and
database. -/
theorem duplicate_adds_fresh_variant_row_witness :
    ∃ newRec,
      on_game_duplicate_db sampleGame sampleEnvDup
          = .ok (sampleEnvDup.db ++ [newRec])
      ∧ newRec.id ∉ sampleEnvDup.db.map DbGame.id
      ∧ newRec.name = get_unusued_game_name sampleEnvDup.db sampleGame.name
      ∧ newRec.name ∉ usedNames sampleEnvDup.db
      ∧ (∃ s, newRec.name = sampleGame.name ++ s)
      ∧ (sampleRec.configpath = none → newRec.configpath = none)
      ∧ (∀ c, sampleRec.configpath = some c → c ≠ "" →
          newRec.configpath = some (duplicate_game_config sampleGame.slug c))
      ∧ newRec.service = none
      ∧ newRec.service_id = none
      ∧ newRec.rest = sampleRec.rest :=
  duplicate_adds_fresh_variant_row sampleGame sampleEnvDup sampleRec rfl rfl rfl

/-- The resized width is at least the target width. -/
theorem tw_le_resizedW (bw bh tw th : Nat) (hbh : 0 < bh) :
    tw ≤ resizedW bw bh tw th := by
  rw [resizedW]
  split
  · next hc => exact (Nat.le_div_iff_mul_le hbh).mpr hc
  · exact le_refl tw

/-- The resized height is at least the target height. -/
theorem th_le_resizedH (bw bh tw th : Nat) (hbw : 0 < bw) :
    th ≤ resizedH bw bh tw th := by
  rw [resizedH]
  split
  · exact le_refl th
  · next hc =>
      have hlt : bw * th < tw * bh := Nat.lt_of_not_le hc
      refine (Nat.le_div_iff_mul_le hbw).mpr ?_
      calc th * bw = bw * th := Nat.mul_comm th bw
        _ ≤ tw * bh := Nat.le_of_lt hlt
        _ = bh * tw := Nat.mul_comm tw bh

/-- C9: `thumbnail_image` nearly hits the target size: for positive base
and target dimensions, each returned dimension is at least the target
and exceeds it by at most one pixel — the off-by-one left by the floored
half-offsets applied to both sides of the crop. -/
theorem thumbnail_dims_near_target (bw bh tw th : Nat)
    (hbw : 0 < bw) (hbh : 0 < bh) (htw : 0 < tw) (hth : 0 < th) :
    tw ≤ (thumbnail_dims bw bh tw th).1
    ∧ (thumbnail_dims bw bh tw th).1 ≤ tw + 1
    ∧ th ≤ (thumbnail_dims bw bh tw th).2
    ∧ (thumbnail_dims bw bh tw th).2 ≤ th + 1 := by
  have hw := tw_le_resizedW bw bh tw th hbh
  have hh := th_le_resizedH bw bh tw th hbw
  rw [thumbnail_dims]
  constructor
  · simp only
    omega
  constructor
  · simp only
    omega
  constructor
  · simp only
    omega
  · simp only
    omega

/-- C9 witness: the bound applied to an 4x3 base image and a 2x3
target. -/
theorem thumbnail_dims_near_target_witness :
    0 < 4 ∧ 0 < 3 ∧ 0 < 2 ∧ 0 < 3
    ∧ (2 ≤ (thumbnail_dims 4 3 2 3).1
       ∧ (thumbnail_dims 4 3 2 3).1 ≤ 2 + 1
       ∧ 3 ≤ (thumbnail_dims 4 3 2 3).2
       ∧ (thumbnail_dims 4 3 2 3).2 ≤ 3 + 1) :=
  ⟨by decide, by decide, by decide, by decide,
   thumbnail_dims_near_target 4 3 2 3 (by decide) (by decide) (by decide) (by decide)⟩

/-- C5 counterexample: when the image file exists but fails to load, the
fallback is never consulted — `get_pixbuf` returns the bare unavailable
overlay even though a present, loadable fallback was given and the game
is installed; the claim's fallback chain predicts the fallback pixbuf. -/
theorem get_pixbuf_skips_fallback_on_corrupt_image :
    get_pixbuf fsImageCorrupt "/img/banner.png" (184, 69) (some "/img/fb.png") true
        = .ok (scale_simple (.fromFileAtSize unavailableOverlay 184 69) 184 69)
      ∧ get_pixbuf fsImageCorrupt "/img/banner.png" (184, 69) (some "/img/fb.png") true
          ≠ .ok (scale_simple (.fromFileAtSize "/img/fb.png" 184 69) 184 69) := by
  refine ⟨rfl, ?_⟩
  intro h
  injection h with h
  exact absurd h (by decide)

/-- C5 amended: `get_pixbuf`'s fallback chain, as the code implements
it.  Every pixbuf it returns has exactly the requested size.  When the
image file exists (non-empty) and loads and the game is installed, the
result is the image loaded at size and rescaled to exactly size.  When
the image exists but fails to load, the fallback is not consulted: the
bare unavailable overlay is returned (the load failure is only logged).
When the image is absent, the given fallback — or, when the fallback is
falsy, the default icon (square size) / default banner (non-square
size) — is loaded if present.  Whenever `is_installed` is false the
result is the unavailable-overlay pixbuf, bare or composited under the
loaded image, never the bare image. -/
theorem get_pixbuf_fallback_chain (fs : FsEnv) (image : String)
    (size : Nat × Nat) (fallback : Option String) (is_installed : Bool) :
    (∀ p, get_pixbuf fs image size fallback is_installed = .ok p →
        pixbufSize p = some size)
    ∧ (fs.path_exists_excl_empty image = true → fs.load_ok image = true →
        is_installed = true →
        get_pixbuf fs image size fallback is_installed
          = .ok (scale_simple (scale_simple
              (.fromFileAtSize image size.1 size.2) size.1 size.2) size.1 size.2))
    ∧ (fs.path_exists_excl_empty image = true → fs.load_ok image = false →
        fs.load_ok unavailableOverlay = true →
        get_pixbuf fs image size fallback is_installed
          = .ok (scale_simple (.fromFileAtSize unavailableOverlay size.1 size.2)
              size.1 size.2))
    ∧ (∀ fb, fs.path_exists_excl_empty image = false → fallback = some fb →
        fb ≠ "" → fs.path_exists fb = true → fs.load_ok fb = true →
        is_installed = true →
        get_pixbuf fs image size fallback is_installed
          = .ok (scale_simple (.fromFileAtSize fb size.1 size.2) size.1 size.2))
    ∧ (fs.path_exists_excl_empty image = false → pyTruthy fallback = false →
        fs.path_exists (get_default_icon size) = true →
        fs.load_ok (get_default_icon size) = true → is_installed = true →
        get_pixbuf fs image size fallback is_installed
          = .ok (scale_simple (.fromFileAtSize (get_default_icon size) size.1 size.2)
              size.1 size.2))
    ∧ (is_installed = false → ∀ p,
        get_pixbuf fs image size fallback is_installed = .ok p →
          p = scale_simple (.fromFileAtSize unavailableOverlay size.1 size.2)
                size.1 size.2
          ∨ ∃ q, p = .composited (scale_simple
              (.fromFileAtSize unavailableOverlay size.1 size.2) size.1 size.2) q)
    ∧ (size.1 = size.2 →
        get_default_icon size = datapathGet ++ "/media/default_icon.png")
    ∧ (size.1 ≠ size.2 →
        get_default_icon size = datapathGet ++ "/media/default_banner.png") := by
  refine ⟨?_, ?_, ?_, ?_, ?_, ?_, ?_, ?_⟩
  · intro p hp
    by_cases hA : fs.path_exists_excl_empty image <;>
      by_cases hB : fs.load_ok image <;>
      by_cases hC : fs.path_exists (fallbackPath size fallback) <;>
      by_cases hD : fs.load_ok (fallbackPath size fallback) <;>
      by_cases hE : fs.load_ok unavailableOverlay <;>
      cases is_installed <;>
      simp_all [get_pixbuf, loadedPixbuf, overlayComposite, get_overlay,
        scale_simple, pixbufSize] <;>
      (try subst hp) <;>
      simp [pixbufSize]
  · intro h1 h2 h3
    simp [get_pixbuf, loadedPixbuf, h1, h2, h3, scale_simple]
  · intro h1 h2 hE
    simp [get_pixbuf, loadedPixbuf, overlayComposite, get_overlay,
      h1, h2, hE, scale_simple]
  · intro fb hA hfb hne hC hD hI
    subst hfb
    have hfp : fallbackPath size (some fb) = fb := by
      simp [fallbackPath, pyTruthy, hne]
    simp [get_pixbuf, loadedPixbuf, hA, hfp, hC, hD, hI, scale_simple]
  · intro hA hfb hC hD hI
    have hfp : fallbackPath size fallback = get_default_icon size := by
      simp [fallbackPath, hfb]
    simp [get_pixbuf, loadedPixbuf, hA, hfp, hC, hD, hI, scale_simple]
  · intro hI p hp
    subst hI
    by_cases hA : fs.path_exists_excl_empty image <;>
      by_cases hB : fs.load_ok image <;>
      by_cases hC : fs.path_exists (fallbackPath size fallback) <;>
      by_cases hD : fs.load_ok (fallbackPath size fallback) <;>
      by_cases hE : fs.load_ok unavailableOverlay <;>
      simp_all [get_pixbuf, loadedPixbuf, overlayComposite, get_overlay,
        scale_simple] <;>
      (try subst hp) <;>
      (first
        | exact Or.inl rfl
        | exact Or.inr ⟨_, rfl⟩)
  · intro h
    simp [get_default_icon, h]
  · intro h
    simp [get_default_icon, h]

/-- C5 amended, witness: the fallback-chain theorem applied at a file
system in which the icon exists and loads. -/
theorem get_pixbuf_fallback_chain_witness :
    get_pixbuf fsAllGood "/img/icon.png" (32, 32) none true
      = .ok (scale_simple (scale_simple
          (.fromFileAtSize "/img/icon.png" 32 32) 32 32) 32 32) :=
  (get_pixbuf_fallback_chain fsAllGood "/img/icon.png" (32, 32) none true).2.1
    rfl rfl rfl

end Lutris
